import Mathlib

/-!
Shallow embedding of the Daikin Alira Home Assistant integration
(config_flow.py, sensor.py, climate.py) for checking the repository
specification against the code.

Modelling conventions:
  - Python dicts/lists parsed from JSON bodies are modelled by the Json
    inductive; protocol status-tree nodes by StatusNode (a typed view of the
    node dicts, whose relevant keys are pn, pv, pch, each possibly absent).
  - Python exceptions are modelled by PyError together with Except; a
    function that may raise returns Except PyError.
  - Python floats are modelled by rationals: every numeric value involved
    (half-degree temperatures, small unsigned integers divided by 2) is an
    exact dyadic rational, so float rounding never occurs on these paths.
  - The aiohttp/Home Assistant framework boundary (HTTP transport, the
    DataUpdateCoordinator) is not repository code; it is modelled by small
    explicit state machines documented at their definitions.
-/

/-- Kinds of Python exception relevant to the embedded code paths.
clientError covers aiohttp.ClientError and its subclasses (including
ClientResponseError from raise_for_status and ContentTypeError from
resp.json); timeoutError is asyncio.TimeoutError; jsonDecodeError is the
json.JSONDecodeError raised by resp.json on a syntactically invalid body;
stopIteration is raised by the next() calls in path navigation. -/
inductive PyError where
  | clientError
  | timeoutError
  | keyError
  | indexError
  | typeError
  | jsonDecodeError
  | stopIteration
  deriving DecidableEq, Repr

/-- Values parsed from a JSON document, as Python would hold them
(dict, list, str, int, bool, None). -/
inductive Json where
  | null : Json
  | bool (b : Bool) : Json
  | num (n : Int) : Json
  | str (s : String) : Json
  | arr (xs : List Json) : Json
  | obj (fields : List (String × Json)) : Json

/-- Python subscription j[k] with a string key: succeeds on a dict holding
the key, raises KeyError on a dict missing it, and TypeError on every
non-dict value. -/
def Json.getField (j : Json) (k : String) : Except PyError Json :=
  match j with
  | Json.obj fields =>
    match fields.find? (fun p => p.1 == k) with
    | some p => Except.ok p.2
    | none => Except.error PyError.keyError
  | _ => Except.error PyError.typeError

/-- Python subscription j[i] with an integer index: element or IndexError on
a list, KeyError on a dict (JSON object keys are strings, so an integer key
is never present), character or IndexError on a string, TypeError
otherwise. -/
def Json.getIndex (j : Json) (i : Nat) : Except PyError Json :=
  match j with
  | Json.arr xs =>
    match xs.get? i with
    | some v => Except.ok v
    | none => Except.error PyError.indexError
  | Json.obj _ => Except.error PyError.keyError
  | Json.str s =>
    match s.data.get? i with
    | some c => Except.ok (Json.str (String.mk [c]))
    | none => Except.error PyError.indexError
  | _ => Except.error PyError.typeError

/-- Outcome of the HTTP POST in fetch_status, at the aiohttp boundary:
the request may fail in transit (aiohttp.ClientError), time out against the
10-second async_timeout guard, or produce a response carrying a status code
and a body-decoding outcome. The body field models await resp.json():
ok with the parsed document, or the exception that call raises
(PyError.clientError for ContentTypeError, PyError.jsonDecodeError for a
syntactically invalid body). -/
inductive HttpResult where
  | transportError
  | timeout
  | response (status : Nat) (body : Except PyError Json)

/-- Embeds aiohttp ClientResponse.raise_for_status, which raises
ClientResponseError (an aiohttp.ClientError) exactly when the status code
is 400 or above. -/
def raiseForStatus (status : Nat) : Except PyError Unit :=
  if 400 ≤ status then Except.error PyError.clientError else Except.ok ()

/-- Embeds the try-block of sensor.fetch_status (sensor.py lines 57 to 62):
raise_for_status, decode the JSON body, then extract
data["responses"][0]["pc"]["pch"], propagating the first exception. -/
def fetchStatusBody (r : HttpResult) : Except PyError Json :=
  match r with
  | HttpResult.transportError => Except.error PyError.clientError
  | HttpResult.timeout => Except.error PyError.timeoutError
  | HttpResult.response status body =>
    match raiseForStatus status with
    | Except.error e => Except.error e
    | Except.ok _ =>
      match body with
      | Except.error e => Except.error e
      | Except.ok data =>
        match data.getField "responses" with
        | Except.error e => Except.error e
        | Except.ok resps =>
          match resps.getIndex 0 with
          | Except.error e => Except.error e
          | Except.ok r0 =>
            match r0.getField "pc" with
            | Except.error e => Except.error e
            | Except.ok pc => pc.getField "pch"

/-- Exception kinds caught by the except clause of fetch_status
(sensor.py line 63): aiohttp.ClientError, asyncio.TimeoutError, KeyError.
IndexError, TypeError and json.JSONDecodeError are not in the tuple. -/
def isCaughtByFetch (e : PyError) : Bool :=
  match e with
  | PyError.clientError => true
  | PyError.timeoutError => true
  | PyError.keyError => true
  | _ => false

/-- Embeds sensor.fetch_status (sensor.py lines 54 to 65): on a caught
exception it logs and returns the empty list; any other exception
propagates to the caller. -/
def fetch_status (r : HttpResult) : Except PyError Json :=
  match fetchStatusBody r with
  | Except.ok v => Except.ok v
  | Except.error e =>
    if isCaughtByFetch e then Except.ok (Json.arr []) else Except.error e

/-- Status-tree node: a typed view of the node dicts making up the fetched
tree, with the three keys the code reads (pn, pv, pch), each possibly
absent. -/
inductive StatusNode where
  | mk (pn : Option String) (pv : Option String) (pch : Option (List StatusNode)) : StatusNode

/-- Reads the pn key, as item.get("pn") does (None when absent). -/
def StatusNode.pn : StatusNode → Option String
  | StatusNode.mk a _ _ => a

/-- Reads the pv key, as item.get("pv") does (None when absent). -/
def StatusNode.pv : StatusNode → Option String
  | StatusNode.mk _ b _ => b

/-- Reads the pch key, as item.get("pch") does (None when absent). -/
def StatusNode.pch : StatusNode → Option (List StatusNode)
  | StatusNode.mk _ _ c => c

/-- Reads item.get("pch", []): the children list, defaulting to empty. -/
def StatusNode.pchD (n : StatusNode) : List StatusNode :=
  n.pch.getD []

/-- Embeds next(item for item in node if item.get("pn") == seg) as an
Option: the first node at this level whose pn equals the segment, if any
(None compares unequal to every string, so nodes without pn are skipped). -/
def findPn (nodes : List StatusNode) (seg : String) : Option StatusNode :=
  nodes.find? (fun item => item.pn == some seg)

/-- Embeds the loop body of BaseDaikinSensor._get_by_path (sensor.py lines
92 to 96) with its exception behaviour explicit: a segment with no matching
node raises StopIteration. The AttributeError and TypeError arms of the
source's except clause have no counterpart here because the typed tree
cannot produce them. -/
def getByPathAux : List StatusNode → List String → Except PyError (List StatusNode)
  | node, [] => Except.ok node
  | node, seg :: rest =>
    match findPn node seg with
    | none => Except.error PyError.stopIteration
    | some item => getByPathAux item.pchD rest

/-- Embeds BaseDaikinSensor._get_by_path (sensor.py lines 91 to 99): the
navigation loop with its except clause, which catches the StopIteration
(and AttributeError/TypeError) and returns the empty list. -/
def getByPath (data : List StatusNode) (segs : List String) : List StatusNode :=
  match getByPathAux data segs with
  | Except.ok v => v
  | Except.error _ => []

/-- Value of a single hexadecimal digit character, if it is one. -/
def hexDigitVal (c : Char) : Option Nat :=
  if 48 ≤ c.toNat ∧ c.toNat ≤ 57 then some (c.toNat - 48)
  else if 97 ≤ c.toNat ∧ c.toNat ≤ 102 then some (c.toNat - 87)
  else if 65 ≤ c.toNat ∧ c.toNat ≤ 70 then some (c.toNat - 55)
  else none

/-- Embeds bytes.fromhex on a list of characters: consumes pairs of hex
digits into byte values, failing (ValueError in Python) on an odd count or
a non-hex character. CPython additionally tolerates blanks between bytes,
which no value handled by this integration contains. -/
def bytesFromHexList : List Char → Option (List Nat)
  | [] => some []
  | [_] => none
  | c1 :: c2 :: rest =>
    match hexDigitVal c1 with
    | none => none
    | some h =>
      match hexDigitVal c2 with
      | none => none
      | some l =>
        match bytesFromHexList rest with
        | none => none
        | some bs => some ((16 * h + l) :: bs)

/-- Embeds bytes.fromhex on a string. -/
def bytesFromHex (s : String) : Option (List Nat) :=
  bytesFromHexList s.data

/-- Embeds int.from_bytes(bs, "little"): the first byte is least
significant. -/
def intFromBytesLE (bs : List Nat) : Nat :=
  bs.foldr (fun b acc => b + 256 * acc) 0

/-- Embeds BaseDaikinSensor._parse_hex_to_int (sensor.py lines 101 to 106):
decode the hex string little-endian and divide by the scale; the bare
except returns None on invalid hex (and would also absorb the
ZeroDivisionError a zero scale causes, hence the guard). -/
def parseHexToInt (hexstr : String) (scale : ℚ) : Option ℚ :=
  if scale = 0 then none
  else
    match bytesFromHex hexstr with
    | some bs => some ((intFromBytesLE bs : ℚ) / scale)
    | none => none

/-- Temperature range bound MIN_TEMP (climate.py line 57). -/
def MIN_TEMP : ℚ := 16

/-- Temperature range bound MAX_TEMP (climate.py line 58). -/
def MAX_TEMP : ℚ := 30

/-- Embeds Python round() on a rational: round half to even. On the
integral values this code produces (a clamped temperature times two where
the temperature is a half-degree multiple) the tie branch is never
taken. -/
def pyRound (q : ℚ) : Int :=
  if q - ⌊q⌋ < 1 / 2 then ⌊q⌋
  else if 1 / 2 < q - ⌊q⌋ then ⌊q⌋ + 1
  else if ⌊q⌋ % 2 = 0 then ⌊q⌋ else ⌊q⌋ + 1

/-- Uppercase hexadecimal digit character for a value below 16. -/
def hexDigitUpper (n : Nat) : Char :=
  if n < 10 then Char.ofNat (48 + n) else Char.ofNat (55 + n)

/-- Renders one byte as two uppercase hexadecimal digits, as one byte of
raw_bytes.hex().upper() does. -/
def byteToHexUpper (b : Nat) : String :=
  String.mk [hexDigitUpper (b / 16), hexDigitUpper (b % 16)]

/-- Embeds the encoding steps of DaikinClimate.async_set_temperature
(climate.py lines 343 to 350): clamp to [MIN_TEMP, MAX_TEMP], take
raw_value = int(round(temp * 2)), pack as 2 bytes little-endian unsigned,
render as uppercase hex. After clamping, raw_value lies in [32, 60], so the
OverflowError branch of to_bytes and the negative case of toNat are
unreachable. -/
def encodeTargetTemp (temp : ℚ) : String :=
  let t := if temp < MIN_TEMP then MIN_TEMP else if MAX_TEMP < temp then MAX_TEMP else temp
  let raw := (pyRound (t * 2)).toNat
  byteToHexUpper (raw % 256) ++ byteToHexUpper (raw / 256)

/-- HVAC mode string HVAC_MODE_OFF (climate.py line 34). -/
def HVAC_MODE_OFF : String := "off"

/-- HVAC mode string HVAC_MODE_AUTO (climate.py line 35). -/
def HVAC_MODE_AUTO : String := "auto"

/-- HVAC mode string HVAC_MODE_COOL (climate.py line 36). -/
def HVAC_MODE_COOL : String := "cool"

/-- HVAC mode string HVAC_MODE_HEAT (climate.py line 37). -/
def HVAC_MODE_HEAT : String := "heat"

/-- HVAC mode string HVAC_MODE_FAN_ONLY (climate.py line 38). -/
def HVAC_MODE_FAN_ONLY : String := "fan_only"

/-- HVAC mode string HVAC_MODE_DRY (climate.py line 39). -/
def HVAC_MODE_DRY : String := "dry"

/-- Embeds dict.get(k) on a string-to-string dict held as an ordered
association list (the literals below have pairwise distinct keys, so
first-match lookup agrees with Python dict semantics). -/
def mapGetOpt (m : List (String × String)) (k : String) : Option String :=
  (m.find? (fun p => p.1 == k)).map (fun p => p.2)

/-- Embeds dict.get(k, d) with a default. -/
def mapGetD (m : List (String × String)) (k d : String) : String :=
  (mapGetOpt m k).getD d

/-- Fan-speed mapping FAN_SPEED_MAP, hex to label (climate.py lines 65
to 73). -/
def FAN_SPEED_MAP : List (String × String) :=
  [("0300", "1"), ("0400", "2"), ("0500", "3"), ("0600", "4"), ("0700", "5"),
   ("0A00", "Auto"), ("0B00", "Quiet")]

/-- Reverse fan-speed mapping FAN_SPEED_REVERSE_MAP, built by the dict
comprehension on climate.py line 74; the labels are pairwise distinct, so
no entry overrides another. -/
def FAN_SPEED_REVERSE_MAP : List (String × String) :=
  FAN_SPEED_MAP.map (fun p => (p.2, p.1))

/-- Operation-mode mapping MODE_MAP, hex to Home Assistant mode string
(climate.py lines 77 to 83). -/
def MODE_MAP : List (String × String) :=
  [("0300", HVAC_MODE_AUTO), ("0200", HVAC_MODE_COOL), ("0100", HVAC_MODE_HEAT),
   ("0000", HVAC_MODE_FAN_ONLY), ("0500", HVAC_MODE_DRY)]

/-- Reverse operation-mode mapping MODE_REVERSE_MAP (climate.py line 84). -/
def MODE_REVERSE_MAP : List (String × String) :=
  MODE_MAP.map (fun p => (p.2, p.1))

namespace DaikinClimate

/-- Embeds DaikinClimate._get_power_value (climate.py lines 426 to 438):
drill e_1002 to e_A002, take child 0, read pv defaulting to "00"; the
except clause turns every miss (StopIteration, IndexError) into "00". -/
def getPowerValue (data : List StatusNode) : String :=
  match findPn data "e_1002" with
  | none => "00"
  | some level1 =>
    match findPn level1.pchD "e_A002" with
    | none => "00"
    | some level2 =>
      match level2.pchD.get? 0 with
      | none => "00"
      | some item => item.pv.getD "00"

/-- Mode hex read by DaikinClimate.hvac_mode when the power check passes
(climate.py lines 173 to 178): drill e_1002 to e_3001, take child 0, read
pv defaulting to the empty string; none when any step misses (the misses
raise inside the try and are caught). -/
def modeHex (data : List StatusNode) : Option String :=
  match findPn data "e_1002" with
  | none => none
  | some level1 =>
    match findPn level1.pchD "e_3001" with
    | none => none
    | some level2 =>
      match level2.pchD.get? 0 with
      | none => none
      | some item => some (item.pv.getD "")

/-- Embeds the DaikinClimate.hvac_mode property (climate.py lines 161 to
182): OFF whenever the power value differs from "01"; otherwise the mode
hex mapped through MODE_MAP with OFF as the default, and OFF again when
reading the mode hex raises (caught by the except clause). -/
def hvac_mode (data : List StatusNode) : String :=
  if getPowerValue data ≠ "01" then HVAC_MODE_OFF
  else
    match modeHex data with
    | none => HVAC_MODE_OFF
    | some hexstr => mapGetD MODE_MAP hexstr HVAC_MODE_OFF

/-- Embeds the DaikinClimate.target_temperature property (climate.py lines
202 to 219): drill e_1002 to e_3001, take child 2, decode its pv
little-endian and divide by 2; None when any step raises (missing node,
index out of range, invalid hex). -/
def target_temperature (data : List StatusNode) : Option ℚ :=
  match findPn data "e_1002" with
  | none => none
  | some level1 =>
    match findPn level1.pchD "e_3001" with
    | none => none
    | some level2 =>
      match level2.pchD.get? 2 with
      | none => none
      | some item =>
        match bytesFromHex (item.pv.getD "") with
        | none => none
        | some bs => some ((intFromBytesLE bs : ℚ) / 2)

/-- Embeds the DaikinClimate.fan_mode property (climate.py lines 221 to
237): drill e_1002 to e_3001, take child 8, look its pv up in
FAN_SPEED_MAP with default None; None when any step raises. -/
def fan_mode (data : List StatusNode) : Option String :=
  match findPn data "e_1002" with
  | none => none
  | some level1 =>
    match findPn level1.pchD "e_3001" with
    | none => none
    | some level2 =>
      match level2.pchD.get? 8 with
      | none => none
      | some item => mapGetOpt FAN_SPEED_MAP (item.pv.getD "")

end DaikinClimate

namespace DaikinSetpointSensor

/-- Embeds DaikinSetpointSensor._get_value (sensor.py lines 115 to 119):
navigate to e_1002 then e_3001, and when at least 3 children are present
decode child 2 at scale 2; None otherwise. The inner none arm is
unreachable under the length guard. -/
def getValue (data : List StatusNode) : Option ℚ :=
  if 3 ≤ (getByPath data ["e_1002", "e_3001"]).length then
    match (getByPath data ["e_1002", "e_3001"]).get? 2 with
    | some item => parseHexToInt (item.pv.getD "") 2
    | none => none
  else none

end DaikinSetpointSensor

namespace DaikinFanSpeedSensor

/-- Fan-speed mapping of the telemetry surface, DaikinFanSpeedSensor
.FAN_SPEED_MAP (sensor.py lines 149 to 152); the source duplicates the
climate-side table with identical contents. -/
def FAN_SPEED_MAP : List (String × String) :=
  [("0300", "1"), ("0400", "2"), ("0500", "3"), ("0600", "4"), ("0700", "5"),
   ("0A00", "Auto"), ("0B00", "Quiet")]

/-- Embeds DaikinFanSpeedSensor._get_value (sensor.py lines 157 to 162):
navigate to e_1002 then e_3001, and when at least 9 children are present
map child 8 through the fan table with the fallback label
"Unknown (<hex>)"; None otherwise. The inner none arm is unreachable under
the length guard. -/
def getValue (data : List StatusNode) : Option String :=
  if 9 ≤ (getByPath data ["e_1002", "e_3001"]).length then
    match (getByPath data ["e_1002", "e_3001"]).get? 8 with
    | some item =>
      some (mapGetD FAN_SPEED_MAP (item.pv.getD "")
        ("Unknown (" ++ item.pv.getD "" ++ ")"))
    | none => none
  else none

end DaikinFanSpeedSensor

/-- Observable side effects of a climate write operation: the HTTP PUT it
issues (with its URL and JSON payload) and the coordinator refresh it
requests, in program order. Transport failures of the PUT are logged and
swallowed by the source, so they do not alter the effect sequence. -/
inductive Effect where
  | httpPut (url : String) (payload : Json)
  | refresh

/-- Write-endpoint URL built by each climate write operation. -/
def multireqUrl (host : String) : String :=
  "http://" ++ host ++ "/dsiot/multireq"

/-- Single protocol set-request (op 3) descending e_1002 to the given group
node to one leaf parameter, as each request object of the write payloads in
climate.py is built. -/
def setLeafRequest (group param pv : String) : Json :=
  Json.obj [("op", Json.num 3), ("to", Json.str "/dsiot/edge/adr_0100.dgc_status"),
    ("pc", Json.obj [("pn", Json.str "dgc_status"),
      ("pch", Json.arr [Json.obj [("pn", Json.str "e_1002"),
        ("pch", Json.arr [Json.obj [("pn", Json.str group),
          ("pch", Json.arr [Json.obj [("pn", Json.str param), ("pv", Json.str pv)]])]])]])])]

/-- Payload payload_off of the OFF branch of async_set_hvac_mode
(climate.py lines 247 to 268): one request setting power to "00". -/
def payloadOff : Json :=
  Json.obj [("requests", Json.arr [setLeafRequest "e_A002" "p_01" "00"])]

/-- Payload of the non-OFF branch of async_set_hvac_mode (climate.py lines
289 to 318): power to "01" first, then the mode hex, as one ordered
request array. -/
def modeChangePayload (modeHexCode : String) : Json :=
  Json.obj [("requests", Json.arr
    [setLeafRequest "e_A002" "p_01" "01", setLeafRequest "e_3001" "p_01" modeHexCode])]

/-- Payload of async_set_temperature (climate.py lines 352 to 368): one
request setting p_03 to the encoded temperature. -/
def tempPayload (hexstr : String) : Json :=
  Json.obj [("requests", Json.arr [setLeafRequest "e_3001" "p_03" hexstr])]

/-- Payload of async_set_fan_mode (climate.py lines 395 to 411): one
request setting p_0A to the fan hex code. -/
def fanPayload (hexcode : String) : Json :=
  Json.obj [("requests", Json.arr [setLeafRequest "e_3001" "p_0A" hexcode])]

/-- Embeds DaikinClimate.async_set_hvac_mode (climate.py lines 239 to 331)
as its effect sequence: OFF sends the power-off payload then refreshes; an
unmapped mode logs and returns before any network call or refresh; a
mapped mode sends the two-request payload then refreshes. -/
def async_set_hvac_mode (host mode : String) : List Effect :=
  if mode = HVAC_MODE_OFF then
    [Effect.httpPut (multireqUrl host) payloadOff, Effect.refresh]
  else
    match mapGetOpt MODE_REVERSE_MAP mode with
    | none => []
    | some modeHexCode =>
      [Effect.httpPut (multireqUrl host) (modeChangePayload modeHexCode), Effect.refresh]

/-- Embeds DaikinClimate.async_set_temperature (climate.py lines 333 to
381) as its effect sequence: no temperature supplied means an immediate
return; otherwise one PUT with the encoded clamped value, then a
refresh. -/
def async_set_temperature (host : String) (temperature : Option ℚ) : List Effect :=
  match temperature with
  | none => []
  | some t =>
    [Effect.httpPut (multireqUrl host) (tempPayload (encodeTargetTemp t)), Effect.refresh]

/-- Embeds DaikinClimate.async_set_fan_mode (climate.py lines 383 to 424)
as its effect sequence: a label outside FAN_SPEED_REVERSE_MAP logs and
returns before any network call or refresh; otherwise one PUT with the
resolved hex code, then a refresh. -/
def async_set_fan_mode (host fanModeLabel : String) : List Effect :=
  match mapGetOpt FAN_SPEED_REVERSE_MAP fanModeLabel with
  | none => []
  | some hexcode =>
    [Effect.httpPut (multireqUrl host) (fanPayload hexcode), Effect.refresh]

/-- Outcome of the connectivity probe GET in the configuration flow: a
transport exception, or a response with a status code. -/
inductive ProbeResult where
  | transportError
  | response (status : Nat)
  deriving DecidableEq, Repr

/-- Result of one configuration-flow step: a created persisted entry
(title and stored host) or the re-displayed form with its field errors. -/
inductive FlowResult where
  | createEntry (title : String) (host : String)
  | showForm (errors : List (String × String))
  deriving DecidableEq, Repr

/-- Embeds DaikinAliraConfigFlow.async_step_user (config_flow.py lines 12
to 27): with no input, show the empty form; with a host, probe it — any
transport exception, or a status other than 200 (which the source converts
to an exception), lands in the except clause tagging the form with
cannot_connect; only a 200 reaches the else branch creating the entry. -/
def async_step_user (userInput : Option String) (probe : ProbeResult) : FlowResult :=
  match userInput with
  | none => FlowResult.showForm []
  | some host =>
    match probe with
    | ProbeResult.transportError => FlowResult.showForm [("base", "cannot_connect")]
    | ProbeResult.response status =>
      if status ≠ 200 then FlowResult.showForm [("base", "cannot_connect")]
      else FlowResult.createEntry ("Daikin @ " ++ host) host

/-- Holds whether a flow result is a created entry. -/
def FlowResult.isCreateEntry : FlowResult → Bool
  | FlowResult.createEntry _ _ => true
  | FlowResult.showForm _ => false

/-- State of one polling loop (Home Assistant DataUpdateCoordinator): the
last fetched tree and the last-success flag. -/
structure PollState where
  data : Json
  lastUpdateSuccess : Bool

/-- Models the refresh step of the Home Assistant DataUpdateCoordinator
(framework code, not part of this repository): a normal return of the
update method is stored as the new data with the success flag set; an
exception escaping the update method is caught by the coordinator, which
keeps the previous data and clears the success flag (and, outside the
first refresh, does not re-raise to the entity layer). -/
def coordinatorRefresh (prev : PollState) (result : Except PyError Json) : PollState :=
  match result with
  | Except.ok v => { data := v, lastUpdateSuccess := true }
  | Except.error _ => { data := prev.data, lastUpdateSuccess := false }

/-- Embeds BaseDaikinSensor.available (sensor.py lines 78 to 80): the
coordinator's last-success flag. -/
def sensorAvailable (st : PollState) : Bool :=
  st.lastUpdateSuccess

/-- Holds when fetch_status itself raises (rather than returning a tree)
for the given fetch outcome. -/
def fetchRaises (r : HttpResult) : Bool :=
  match fetch_status r with
  | Except.ok _ => false
  | Except.error _ => true

/-- Models sensor async_setup_entry around its first refresh (sensor.py
lines 39 to 51 together with the framework's
async_config_entry_first_refresh, which raises ConfigEntryNotReady exactly
when that refresh fails): entities are registered if and only if the first
refresh succeeds, since sensor.py does not catch the exception. -/
def sensorSetupProceeds (r : HttpResult) : Bool :=
  (coordinatorRefresh { data := Json.null, lastUpdateSuccess := false }
    (fetch_status r)).lastUpdateSuccess

/-- Modelled from the spec: the integration domain constant DOMAIN lives in
const.py, which is not among the provided sources; climate.py's device_info
docstring names the sensor-side identifier as (DOMAIN, "daikin_alira-<host>"),
so DOMAIN is the string "daikin_alira". -/
def DOMAIN : String := "daikin_alira"

/-- Name given to the telemetry polling loop (sensor.py line 34). -/
def sensorCoordinatorName (host : String) : String :=
  DOMAIN ++ "-" ++ host

/-- Device identifier under which the six telemetry values group
themselves, BaseDaikinSensor.device_info (sensor.py lines 82 to 89): the
domain paired with the polling loop's name. -/
def sensorDeviceIdentifier (host : String) : String × String :=
  (DOMAIN, sensorCoordinatorName host)

/-- Device identifier reported by DaikinClimate.device_info (climate.py
lines 147 to 159): the domain paired with the string built directly from
domain and host. -/
def climateDeviceIdentifier (host : String) : String × String :=
  (DOMAIN, DOMAIN ++ "-" ++ host)

/-- Helper: a successful optional index is below the list length. -/
theorem get?_some_lt {α : Type} {l : List α} {i : Nat} {x : α}
    (h : l.get? i = some x) : i < l.length := by
  induction l generalizing i with
  | nil => simp at h
  | cons y ys ih =>
    cases i with
    | zero => simp
    | succ j =>
      simp only [List.get?] at h
      have := ih h
      simp only [List.length_cons]
      omega

/-- Helper: the element a successful in-bounds index returns. -/
theorem get?_cons_succ {α : Type} (y : α) (ys : List α) (j : Nat) :
    (y :: ys).get? (j + 1) = ys.get? j := rfl

/-- Helper: two-segment navigation unfolds into its two lookups. -/
theorem getByPath_two (data : List StatusNode) (a b : String) :
    getByPath data [a, b] =
      match findPn data a with
      | none => []
      | some level1 =>
        match findPn level1.pchD b with
        | none => []
        | some level2 => level2.pchD := by
  cases hfa : findPn data a with
  | none => simp [getByPath, getByPathAux, hfa]
  | some l1 =>
    cases hfb : findPn l1.pchD b with
    | none => simp [getByPath, getByPathAux, hfa, hfb]
    | some l2 => simp [getByPath, getByPathAux, hfa, hfb]

/-- Helper: navigation over a concatenated path splits into sequential
navigation. -/
theorem getByPathAux_append (data : List StatusNode) (pre rest : List String) :
    getByPathAux data (pre ++ rest) =
      match getByPathAux data pre with
      | Except.ok mid => getByPathAux mid rest
      | Except.error e => Except.error e := by
  induction pre generalizing data with
  | nil => simp [getByPathAux]
  | cons seg pre ih =>
    simp only [List.cons_append, getByPathAux]
    cases h : findPn data seg with
    | none => rfl
    | some item => exact ih item.pchD

/-- Helper: hex decoding to a natural number, the rational-free core of
parseHexToInt used to settle the byte-level round trip by evaluation. -/
def decodeNatHex (s : String) : Option Nat :=
  (bytesFromHex s).map intFromBytesLE

/-- Helper: the byte-level round trip over the 29 admissible raw values,
settled by evaluation. -/
theorem decode_encode_nat :
    ∀ k : Nat, k < 61 → 32 ≤ k →
      decodeNatHex (byteToHexUpper (k % 256) ++ byteToHexUpper (k / 256)) = some k := by
  decide

/-- Helper: Python round is the identity on a natural number. -/
theorem pyRound_natCast (k : Nat) : pyRound (k : ℚ) = k := by
  have h1 : ⌊(k : ℚ)⌋ = (k : Int) := Int.floor_natCast k
  simp [pyRound, h1]

/-- Helper: a half-integer temperature in range is left alone by the
clamping step. -/
theorem clamp_in_range (k : Nat) (hk1 : 32 ≤ k) (hk2 : k ≤ 60) :
    ¬((k : ℚ) / 2 < MIN_TEMP) ∧ ¬(MAX_TEMP < (k : ℚ) / 2) := by
  constructor
  · rw [MIN_TEMP, not_lt, le_div_iff₀ (by norm_num : (0 : ℚ) < 2)]
    have : (32 : ℚ) ≤ (k : ℚ) := by exact_mod_cast hk1
    linarith
  · rw [MAX_TEMP, not_lt, div_le_iff₀ (by norm_num : (0 : ℚ) < 2)]
    have : (k : ℚ) ≤ 60 := by exact_mod_cast hk2
    linarith

/-- Helper: the encoding of an in-range half-integer temperature, with the
clamp and the rounding discharged. -/
theorem encodeTargetTemp_eq (k : Nat) (hk1 : 32 ≤ k) (hk2 : k ≤ 60) :
    encodeTargetTemp ((k : ℚ) / 2)
      = byteToHexUpper (k % 256) ++ byteToHexUpper (k / 256) := by
  obtain ⟨hlo, hhi⟩ := clamp_in_range k hk1 hk2
  have hmul : ((k : ℚ) / 2) * 2 = (k : ℚ) := div_mul_cancel₀ _ two_ne_zero
  simp only [encodeTargetTemp, if_neg hlo, if_neg hhi, hmul, pyRound_natCast,
    Int.toNat_natCast]

/-- C1: for every temperature t that is a multiple of 0.5 in [16.0, 30.0]
(that is, t = k/2 for a natural k between 32 and 60), encoding t as the
set-target-temperature operation does — raw = round(t times 2), packed as
a 2-byte unsigned little-endian value, rendered as an uppercase hex
string — and then decoding that string with the decode-value helper at
scale 2 yields t again. -/
theorem C1_temperature_roundtrip (t : ℚ)
    (h : ∃ k : Nat, 32 ≤ k ∧ k ≤ 60 ∧ t = (k : ℚ) / 2) :
    parseHexToInt (encodeTargetTemp t) 2 = some t := by
  obtain ⟨k, hk1, hk2, rfl⟩ := h
  rw [encodeTargetTemp_eq k hk1 hk2]
  have hdec := decode_encode_nat k (by omega) hk1
  obtain ⟨bs, hbs, hk⟩ := Option.map_eq_some'.mp hdec
  rw [parseHexToInt, if_neg (by norm_num : ¬(2 : ℚ) = 0), hbs]
  show some ((intFromBytesLE bs : ℚ) / 2) = some ((k : ℚ) / 2)
  rw [hk]

/-- Witness for C1 at t = 24.5 (raw 49, hex "3100"). -/
theorem C1_temperature_roundtrip_witness :
    parseHexToInt (encodeTargetTemp ((49 : ℚ) / 2)) 2 = some ((49 : ℚ) / 2) :=
  C1_temperature_roundtrip ((49 : ℚ) / 2) ⟨49, by norm_num, by norm_num, rfl⟩

/-- C2 counterexample: a 200 response whose body is well-formed JSON with
an empty responses array makes fetch_status raise IndexError to its caller
instead of returning the empty sequence; and a 304 response with a
well-formed body — a non-2xx status that raise_for_status does not treat
as an error — returns the (non-empty) tree rather than the empty
sequence. -/
theorem C2_counterexample :
    fetch_status (HttpResult.response 200
        (Except.ok (Json.obj [("responses", Json.arr [])])))
      = Except.error PyError.indexError
    ∧ fetch_status (HttpResult.response 304 (Except.ok (Json.obj
        [("responses", Json.arr [Json.obj [("pc", Json.obj
          [("pch", Json.arr [Json.null])])]])])))
      = Except.ok (Json.arr [Json.null]) :=
  ⟨rfl, rfl⟩

/-- C2 amended: fetch_status returns the empty sequence on a transport
error, a timeout, an HTTP status of 400 or above, or a KeyError (a missing
object key along responses[0].pc.pch), and returns responses[0].pc.pch on
success; but a shape failure raising IndexError — such as an empty
responses array — propagates the exception to the caller. -/
theorem C2_fetch_error_handling (s : Nat) (b : Except PyError Json) (v : Json) :
    fetch_status HttpResult.transportError = Except.ok (Json.arr [])
    ∧ fetch_status HttpResult.timeout = Except.ok (Json.arr [])
    ∧ (400 ≤ s → fetch_status (HttpResult.response s b) = Except.ok (Json.arr []))
    ∧ (fetchStatusBody (HttpResult.response s b) = Except.error PyError.keyError →
        fetch_status (HttpResult.response s b) = Except.ok (Json.arr []))
    ∧ (fetchStatusBody (HttpResult.response s b) = Except.ok v →
        fetch_status (HttpResult.response s b) = Except.ok v)
    ∧ (fetchStatusBody (HttpResult.response s b) = Except.error PyError.indexError →
        fetch_status (HttpResult.response s b) = Except.error PyError.indexError) := by
  refine ⟨rfl, rfl, ?_, ?_, ?_, ?_⟩
  · intro h
    have hb : fetchStatusBody (HttpResult.response s b) = Except.error PyError.clientError := by
      simp [fetchStatusBody, raiseForStatus, h]
    simp [fetch_status, hb, isCaughtByFetch]
  · intro h
    simp [fetch_status, h, isCaughtByFetch]
  · intro h
    simp [fetch_status, h]
  · intro h
    simp [fetch_status, h, isCaughtByFetch]

/-- Witness for C2 amended: an HTTP 500, a missing responses key, and a
fully well-formed body, each at status values and bodies written out. -/
theorem C2_fetch_error_handling_witness :
    fetch_status (HttpResult.response 500 (Except.ok (Json.obj [])))
      = Except.ok (Json.arr [])
    ∧ fetch_status (HttpResult.response 200 (Except.ok (Json.obj [])))
      = Except.ok (Json.arr [])
    ∧ fetch_status (HttpResult.response 200 (Except.ok (Json.obj
        [("responses", Json.arr [Json.obj [("pc", Json.obj
          [("pch", Json.arr [Json.str "node"])])]])])))
      = Except.ok (Json.arr [Json.str "node"]) :=
  ⟨(C2_fetch_error_handling 500 (Except.ok (Json.obj [])) Json.null).2.2.1 (by decide),
   (C2_fetch_error_handling 200 (Except.ok (Json.obj [])) Json.null).2.2.2.1 rfl,
   (C2_fetch_error_handling 200 (Except.ok (Json.obj
      [("responses", Json.arr [Json.obj [("pc", Json.obj
        [("pch", Json.arr [Json.str "node"])])]])]))
      (Json.arr [Json.str "node"])).2.2.2.2.1 rfl⟩

/-- C3 counterexample: a timeout on a non-initial poll is absorbed by
fetch_status into a normal empty-tree return, so the coordinator records a
successful update and the telemetry values stay available (last-success
stays true); a timeout on the initial fetch likewise lets the sensor
platform's setup proceed instead of aborting it. -/
theorem C3_counterexample :
    sensorAvailable (coordinatorRefresh
        { data := Json.arr [], lastUpdateSuccess := true }
        (fetch_status HttpResult.timeout)) = true
    ∧ sensorSetupProceeds HttpResult.timeout = true :=
  ⟨rfl, rfl⟩

/-- C3 amended: after any poll the telemetry values are unavailable exactly
when fetch_status itself raised — which a timeout or transport error never
does, both being absorbed into a successful poll with an empty tree — and
setup of the telemetry platform is aborted by its initial fetch under
exactly the same condition; an uncaught shape failure such as an empty
responses array is such a raise. -/
theorem C3_fetch_failure_isolation (prev : PollState) (r : HttpResult) :
    sensorAvailable (coordinatorRefresh prev (fetch_status r)) = !(fetchRaises r)
    ∧ sensorSetupProceeds r = !(fetchRaises r)
    ∧ fetchRaises HttpResult.timeout = false
    ∧ fetchRaises HttpResult.transportError = false
    ∧ fetchRaises (HttpResult.response 200
        (Except.ok (Json.obj [("responses", Json.arr [])]))) = true := by
  refine ⟨?_, ?_, rfl, rfl, rfl⟩
  · cases h : fetch_status r with
    | ok v => simp [sensorAvailable, coordinatorRefresh, fetchRaises, h]
    | error e => simp [sensorAvailable, coordinatorRefresh, fetchRaises, h]
  · cases h : fetch_status r with
    | ok v => simp [sensorSetupProceeds, coordinatorRefresh, fetchRaises, h]
    | error e => simp [sensorSetupProceeds, coordinatorRefresh, fetchRaises, h]

/-- C9: for every host, the device identifier reported by the control
entity equals, as an exact composite key, the identifier under which the
telemetry values group themselves, which is derived from the telemetry
polling loop's name — so the platform merges both surfaces into one device
record. -/
theorem C9_device_identity (host : String) :
    climateDeviceIdentifier host = sensorDeviceIdentifier host := rfl

/-- C4: whenever the power value read at e_1002 → e_A002 → child 0 differs
from "01" — including when it is absent or the tree is empty, which the
read defaults to "00" — the control entity's operation mode reads as off
regardless of any mode code in the tree; with power "01" and mode code
"0200" it reads as cool; and with power "01" and a mode code outside the
mode map (or no readable mode code at all) it again reads as off. -/
theorem C4_mode_off_precedence (data : List StatusNode) :
    (DaikinClimate.getPowerValue data ≠ "01" →
      DaikinClimate.hvac_mode data = HVAC_MODE_OFF)
    ∧ (DaikinClimate.getPowerValue data = "01" →
        DaikinClimate.modeHex data = some "0200" →
        DaikinClimate.hvac_mode data = HVAC_MODE_COOL)
    ∧ (DaikinClimate.getPowerValue data = "01" →
        (∀ hexstr, DaikinClimate.modeHex data = some hexstr →
          mapGetOpt MODE_MAP hexstr = none) →
        DaikinClimate.hvac_mode data = HVAC_MODE_OFF) := by
  refine ⟨?_, ?_, ?_⟩
  · intro h
    simp [DaikinClimate.hvac_mode, h]
  · intro h1 h2
    simp only [DaikinClimate.hvac_mode, h1, ne_eq, not_true_eq_false, if_false, h2]
    decide
  · intro h1 h2
    cases hm : DaikinClimate.modeHex data with
    | none =>
      simp [DaikinClimate.hvac_mode, h1, hm]
    | some hexstr =>
      have hnone := h2 hexstr hm
      simp [DaikinClimate.hvac_mode, h1, hm, mapGetD, hnone]

/-- Witness for C4: a tree with power on and mode code 0200 reads cool; the
empty tree reads off. -/
theorem C4_mode_off_precedence_witness :
    DaikinClimate.hvac_mode
      [StatusNode.mk (some "e_1002") none (some
        [StatusNode.mk (some "e_A002") none (some
          [StatusNode.mk (some "p_01") (some "01") none]),
         StatusNode.mk (some "e_3001") none (some
          [StatusNode.mk (some "p_01") (some "0200") none])])] = HVAC_MODE_COOL
    ∧ DaikinClimate.hvac_mode [] = HVAC_MODE_OFF :=
  ⟨(C4_mode_off_precedence
      [StatusNode.mk (some "e_1002") none (some
        [StatusNode.mk (some "e_A002") none (some
          [StatusNode.mk (some "p_01") (some "01") none]),
         StatusNode.mk (some "e_3001") none (some
          [StatusNode.mk (some "p_01") (some "0200") none])])]).2.1 rfl rfl,
   (C4_mode_off_precedence []).1 (by decide)⟩

/-- C5: a fan label outside the seven known fan labels issues no HTTP write
and triggers no refresh — in particular "Turbo" — and a mode string that is
neither off nor one of the five mapped modes issues no HTTP write and
triggers no refresh: in both cases the operation's effect sequence is
empty, so no state changes. -/
theorem C5_unsupported_inputs (host fanModeLabel mode : String) :
    (mapGetOpt FAN_SPEED_REVERSE_MAP fanModeLabel = none →
      async_set_fan_mode host fanModeLabel = [])
    ∧ async_set_fan_mode host "Turbo" = []
    ∧ (mode ≠ HVAC_MODE_OFF → mapGetOpt MODE_REVERSE_MAP mode = none →
        async_set_hvac_mode host mode = []) := by
  refine ⟨?_, ?_, ?_⟩
  · intro h
    simp [async_set_fan_mode, h]
  · have h : mapGetOpt FAN_SPEED_REVERSE_MAP "Turbo" = none := by decide
    simp [async_set_fan_mode, h]
  · intro h1 h2
    simp [async_set_hvac_mode, h1, h2]

/-- Witness for C5 at the labels "Breeze" and "eco". -/
theorem C5_unsupported_inputs_witness :
    async_set_fan_mode "192.168.1.2" "Breeze" = []
    ∧ async_set_hvac_mode "192.168.1.2" "eco" = [] :=
  ⟨(C5_unsupported_inputs "192.168.1.2" "Breeze" "eco").1 (by decide),
   (C5_unsupported_inputs "192.168.1.2" "Breeze" "eco").2.2 (by decide) (by decide)⟩

/-- C6: the configuration flow creates a persisted record if and only if
the connectivity probe returns HTTP status 200; on any other status or a
transport exception it re-displays the form with the field-level error
cannot_connect and creates no record. -/
theorem C6_probe_gating (host : String) (probe : ProbeResult) :
    ((async_step_user (some host) probe).isCreateEntry = true
      ↔ probe = ProbeResult.response 200)
    ∧ (probe ≠ ProbeResult.response 200 →
        async_step_user (some host) probe
          = FlowResult.showForm [("base", "cannot_connect")]) := by
  constructor
  · constructor
    · intro h
      cases probe with
      | transportError => simp [async_step_user, FlowResult.isCreateEntry] at h
      | response s =>
        by_cases hs : s = 200
        · rw [hs]
        · simp [async_step_user, hs, FlowResult.isCreateEntry] at h
    · intro h
      rw [h]
      rfl
  · intro h
    cases probe with
    | transportError => rfl
    | response s =>
      have hs : s ≠ 200 := by
        intro hs
        exact h (by rw [hs])
      simp [async_step_user, hs]

/-- Witness for C6 at host 192.168.1.2 and a 404 probe response. -/
theorem C6_probe_gating_witness :
    async_step_user (some "192.168.1.2") (ProbeResult.response 404)
      = FlowResult.showForm [("base", "cannot_connect")] :=
  (C6_probe_gating "192.168.1.2" (ProbeResult.response 404)).2 (by decide)

/-- Helper: a successful index into the result of two-segment navigation
pins down both lookups. -/
theorem getByPath_two_get (data : List StatusNode) (a b : String) (i : Nat)
    (x : StatusNode) (h : (getByPath data [a, b]).get? i = some x) :
    ∃ l1 l2, findPn data a = some l1 ∧ findPn l1.pchD b = some l2
      ∧ l2.pchD.get? i = some x := by
  cases hfa : findPn data a with
  | none => simp [getByPath, getByPathAux, hfa] at h
  | some l1 =>
    cases hfb : findPn l1.pchD b with
    | none => simp [getByPath, getByPathAux, hfa, hfb] at h
    | some l2 =>
      exact ⟨l1, l2, rfl, hfb, by simpa [getByPath, getByPathAux, hfa, hfb] using h⟩

/-- Helper: decoding the empty hex string at scale 2 succeeds with 0. -/
theorem parseHexToInt_empty : parseHexToInt "" 2 = some 0 := by
  have h1 : bytesFromHex "" = some [] := rfl
  rw [parseHexToInt, if_neg (by norm_num : ¬(2 : ℚ) = 0), h1]
  show some ((intFromBytesLE [] : ℚ) / 2) = some 0
  norm_num [intFromBytesLE]

/-- C7: every hex code of the Fan Map maps to its label and back through
the reverse lookup to the original code; and on a tree whose fan child
(e_1002 → e_3001 → child 8) carries the unmapped code FFFF, the telemetry
fan-speed value renders as the fallback label Unknown (FFFF) while the
control entity's fan-mode read returns no value. -/
theorem C7_fan_map_bijection (data : List StatusNode) (item : StatusNode) :
    (∀ p ∈ FAN_SPEED_MAP, mapGetOpt FAN_SPEED_REVERSE_MAP p.2 = some p.1)
    ∧ ((getByPath data ["e_1002", "e_3001"]).get? 8 = some item →
        item.pv.getD "" = "FFFF" →
        DaikinFanSpeedSensor.getValue data = some "Unknown (FFFF)"
        ∧ DaikinClimate.fan_mode data = none) := by
  constructor
  · decide
  · intro h8 hpv
    have hlen : 9 ≤ (getByPath data ["e_1002", "e_3001"]).length := get?_some_lt h8
    constructor
    · simp only [DaikinFanSpeedSensor.getValue, if_pos hlen, h8]
      rw [hpv]
      decide
    · obtain ⟨l1, l2, hfa, hfb, h2⟩ := getByPath_two_get data "e_1002" "e_3001" 8 item h8
      simp only [DaikinClimate.fan_mode, hfa, hfb, h2]
      rw [hpv]
      decide

/-- Witness for C7: a concrete tree whose e_3001 child 8 carries FFFF. -/
theorem C7_fan_map_bijection_witness :
    DaikinFanSpeedSensor.getValue
      [StatusNode.mk (some "e_1002") none (some
        [StatusNode.mk (some "e_3001") none (some
          [StatusNode.mk (some "p_01") (some "0200") none,
           StatusNode.mk none none none, StatusNode.mk none none none,
           StatusNode.mk none none none, StatusNode.mk none none none,
           StatusNode.mk none none none, StatusNode.mk none none none,
           StatusNode.mk none none none,
           StatusNode.mk (some "p_0A") (some "FFFF") none])])]
      = some "Unknown (FFFF)"
    ∧ DaikinClimate.fan_mode
      [StatusNode.mk (some "e_1002") none (some
        [StatusNode.mk (some "e_3001") none (some
          [StatusNode.mk (some "p_01") (some "0200") none,
           StatusNode.mk none none none, StatusNode.mk none none none,
           StatusNode.mk none none none, StatusNode.mk none none none,
           StatusNode.mk none none none, StatusNode.mk none none none,
           StatusNode.mk none none none,
           StatusNode.mk (some "p_0A") (some "FFFF") none])])]
      = none :=
  (C7_fan_map_bijection
      [StatusNode.mk (some "e_1002") none (some
        [StatusNode.mk (some "e_3001") none (some
          [StatusNode.mk (some "p_01") (some "0200") none,
           StatusNode.mk none none none, StatusNode.mk none none none,
           StatusNode.mk none none none, StatusNode.mk none none none,
           StatusNode.mk none none none, StatusNode.mk none none none,
           StatusNode.mk none none none,
           StatusNode.mk (some "p_0A") (some "FFFF") none])])]
      (StatusNode.mk (some "p_0A") (some "FFFF") none)).2 rfl rfl

/-- C8: for every tree and every requested path of any depth, when some
segment's name is not found among the nodes at its level — the level
reached by successfully navigating the preceding segments — path
navigation returns the empty sequence; no exception escapes, the
StopIteration raised by the miss being caught inside the helper. -/
theorem C8_path_navigation_miss (data mid : List StatusNode)
    (pre : List String) (seg : String) (post : List String)
    (h1 : getByPathAux data pre = Except.ok mid)
    (h2 : findPn mid seg = none) :
    getByPath data (pre ++ seg :: post) = [] := by
  have hstop : getByPathAux data (pre ++ seg :: post)
      = Except.error PyError.stopIteration := by
    rw [getByPathAux_append, h1]
    show getByPathAux mid (seg :: post) = Except.error PyError.stopIteration
    simp [getByPathAux, h2]
  simp [getByPath, hstop]

/-- Witness for C8: a miss at the second segment of a three-segment path. -/
theorem C8_path_navigation_miss_witness :
    getByPath [StatusNode.mk (some "e_1002") none (some [])]
      (["e_1002"] ++ "e_9999" :: ["deeper", "deepest"]) = [] :=
  C8_path_navigation_miss [StatusNode.mk (some "e_1002") none (some [])] []
    ["e_1002"] "e_9999" ["deeper", "deepest"] rfl rfl

/-- C10: decoding the empty hex string at scale 2 succeeds with 0 rather
than reporting no value; consequently, on every tree where the setpoint
leaf (e_1002 → e_3001 → child 2) exists but carries no pv — read back as
the empty string — both the setpoint telemetry value and the control
entity's target temperature report 0 rather than no value. -/
theorem C10_empty_hex_reads_zero (data : List StatusNode) (item : StatusNode) :
    parseHexToInt "" 2 = some 0
    ∧ ((getByPath data ["e_1002", "e_3001"]).get? 2 = some item →
        item.pv = none →
        DaikinSetpointSensor.getValue data = some 0
        ∧ DaikinClimate.target_temperature data = some 0) := by
  refine ⟨parseHexToInt_empty, ?_⟩
  intro h2 hpv
  have hlen : 3 ≤ (getByPath data ["e_1002", "e_3001"]).length := get?_some_lt h2
  constructor
  · simp only [DaikinSetpointSensor.getValue, if_pos hlen, h2]
    rw [hpv]
    exact parseHexToInt_empty
  · obtain ⟨l1, l2, hfa, hfb, hg⟩ := getByPath_two_get data "e_1002" "e_3001" 2 item h2
    simp only [DaikinClimate.target_temperature, hfa, hfb, hg]
    rw [hpv]
    show (match bytesFromHex "" with
      | none => none
      | some bs => some ((intFromBytesLE bs : ℚ) / 2)) = some 0
    have h1 : bytesFromHex "" = some [] := rfl
    rw [h1]
    show some ((intFromBytesLE [] : ℚ) / 2) = some 0
    norm_num [intFromBytesLE]

/-- Witness for C10: a tree whose setpoint leaf exists without a pv. -/
theorem C10_empty_hex_reads_zero_witness :
    DaikinSetpointSensor.getValue
      [StatusNode.mk (some "e_1002") none (some
        [StatusNode.mk (some "e_3001") none (some
          [StatusNode.mk none none none, StatusNode.mk none none none,
           StatusNode.mk (some "p_03") none none])])]
      = some 0
    ∧ DaikinClimate.target_temperature
      [StatusNode.mk (some "e_1002") none (some
        [StatusNode.mk (some "e_3001") none (some
          [StatusNode.mk none none none, StatusNode.mk none none none,
           StatusNode.mk (some "p_03") none none])])]
      = some 0 :=
  (C10_empty_hex_reads_zero
      [StatusNode.mk (some "e_1002") none (some
        [StatusNode.mk (some "e_3001") none (some
          [StatusNode.mk none none none, StatusNode.mk none none none,
           StatusNode.mk (some "p_03") none none])])]
      (StatusNode.mk (some "p_03") none none)).2 rfl rfl
